import Mathlib

/-!
Shallow embedding of the vehicle tracking and counting engine
(`src/tracker.py`, class `VehicleTracker`).

Conventions of the embedding:
* Pixel coordinates and areas are `Int`; percentages and confidences are `ℚ`
  (the source computes them with exact integer inputs, so every comparison
  the engine makes is exact in `ℚ`).
* The source compares Euclidean distances `sqrt(dx² + dy²)` of integer
  vectors; `sqrt` is strictly monotone on nonnegative reals, so every
  comparison (`argmin`, `argsort`, the `> 100` gate) is performed here on
  the integer squared distance, with the gate at `100²`.
* Python dicts iterate in insertion order; the track table is therefore a
  list of `(id, Track)` pairs in insertion order.  The auxiliary dicts
  `previous_positions`, `object_sizes` and the set `counted_ids` are
  folded into the `Track` record (a missing key is the empty list /
  an unset flag; `_register` and `_deregister` keep them in sync).
* `np.argsort` ties (`kind=quicksort`) are modelled as stable, i.e. equal
  row minima keep row order; `np.argmin` returns the first minimising
  index, which the embedding reproduces exactly.
* Iteration over Python sets of small nonnegative ints (`unused_rows`,
  `unused_cols`) is in ascending order.
-/

/-- A detection record handed to `update`: the fields the detector supplies.
`area` is `Option Int` because the source reads it with
`det.get('area', 0)`, i.e. a missing key is treated as `0`. -/
structure Detection where
  bbox : Int × Int × Int × Int
  confidence : ℚ
  class_id : Int
  center : Int × Int
  area : Option Int
deriving DecidableEq

/-- Per-track state: current center, the disappearance counter, the bounded
position history, the bounded size history (perspective mode) and the
"already counted" flag. -/
structure Track where
  center : Int × Int
  disappeared : Nat
  prevPositions : List (Int × Int)
  sizes : List Int
  counted : Bool
deriving DecidableEq

/-- An entry/exit event as returned by the check functions.
`size` and `size_change_pct` are populated only by perspective mode. -/
inductive EventType where
  | entry
  | exit
deriving DecidableEq

structure Event where
  type : EventType
  vehicle_id : Nat
  count : Int
  size : Option Int
  size_change_pct : Option ℚ
deriving DecidableEq

/-- The whole engine state: the construction-time configuration followed by
the mutable tracking and counting state of `VehicleTracker.__init__`. -/
structure TrackerState where
  entry_line : Int
  exit_line : Int
  max_disappeared : Nat
  tracking_mode : String
  size_threshold_entry : Int
  size_threshold_exit : Int
  size_trend_frames : Nat
  size_change_threshold_pct : ℚ
  next_object_id : Nat
  tracks : List (Nat × Track)
  entry_count : Nat
  exit_count : Nat
  current_count : Int
deriving DecidableEq

namespace VehicleTracker

/-- Embedding of `VehicleTracker.__init__`: plain field assignments, with no
validation of any argument. -/
def init (entry_line exit_line : Int) (max_disappeared : Nat)
    (tracking_mode : String) (size_threshold_entry size_threshold_exit : Int)
    (size_trend_frames : Nat) (size_change_threshold_pct : ℚ)
    (initial_count : Int) : TrackerState :=
  { entry_line := entry_line
    exit_line := exit_line
    max_disappeared := max_disappeared
    tracking_mode := tracking_mode
    size_threshold_entry := size_threshold_entry
    size_threshold_exit := size_threshold_exit
    size_trend_frames := size_trend_frames
    size_change_threshold_pct := size_change_threshold_pct
    next_object_id := 0
    tracks := []
    entry_count := 0
    exit_count := 0
    current_count := initial_count }

/-- Python's `round(x, 1)`: round to one decimal digit, here at exact
rational precision via `⌊10q + 1/2⌋ / 10` (Python rounds the nearest float
with banker's ties; ties and float error are irrelevant to every use below,
where the percentage is an integer).  Written on `num`/`den` so that it
evaluates by `decide`. -/
def round1 (q : ℚ) : ℚ :=
  Rat.divInt ((20 * q.num + (q.den : Int)).fdiv (2 * (q.den : Int))) 10

/-- The percentage `(last - first) / first * 100` of `_check_size_change`,
written as a single exact integer division (`Rat.divInt`) so that it
evaluates by `decide`; `pct_eq` below shows it is the literal expression. -/
def sizeChangePct (first_size last_size : Int) : ℚ :=
  Rat.divInt ((last_size - first_size) * 100) first_size

/-- Squared Euclidean distance; stands for `_distance` squared (see the
header note on monotonicity of `sqrt`). -/
def distSq (p1 p2 : Int × Int) : Int :=
  (p1.1 - p2.1) ^ 2 + (p1.2 - p2.2) ^ 2

/-- The size-history window step of `_check_size_change`: append the current
area, then `pop(0)` once if the window exceeds `size_trend_frames`. -/
def slideWindow (frames : Nat) (sizes : List Int) (area : Int) : List Int :=
  let s1 := sizes ++ [area]
  if s1.length > frames then s1.tail else s1

/-- Embedding of `_check_size_change`: the counted guard returns first (before
the window is touched), then the window slides, then the trend is evaluated. -/
def check_size_change (s : TrackerState) (object_id : Nat) (t : Track)
    (area : Int) : TrackerState × Track × Option Event :=
  if t.counted then (s, t, none)
  else
    let sizes := slideWindow s.size_trend_frames t.sizes area
    let t1 : Track := { t with sizes := sizes }
    if sizes.length < 3 then (s, t1, none)
    else
      let first_size := sizes.headD 0
      let last_size := sizes.getLastD 0
      if first_size = 0 then (s, t1, none)
      else
        let size_change_pct : ℚ := sizeChangePct first_size last_size
        if size_change_pct > s.size_change_threshold_pct ∧
            last_size > s.size_threshold_entry then
          let s1 := { s with entry_count := s.entry_count + 1,
                             current_count := s.current_count + 1 }
          (s1, { t1 with counted := true },
            some { type := EventType.entry, vehicle_id := object_id,
                   count := s1.current_count, size := some last_size,
                   size_change_pct := some (round1 size_change_pct) })
        else if size_change_pct < -s.size_change_threshold_pct ∧
            last_size < s.size_threshold_exit then
          let s1 := { s with exit_count := s.exit_count + 1,
                             current_count := max 0 (s.current_count - 1) }
          (s1, { t1 with counted := true },
            some { type := EventType.exit, vehicle_id := object_id,
                   count := s1.current_count, size := some last_size,
                   size_change_pct := some (round1 size_change_pct) })
        else (s, t1, none)

/-- Embedding of `_check_line_crossing`: counted guard, then the entry test,
then — only if entry did not fire — the exit test. -/
def check_line_crossing (s : TrackerState) (object_id : Nat) (t : Track)
    (old_center new_center : Int × Int) : TrackerState × Track × Option Event :=
  if t.counted then (s, t, none)
  else
    let old_y := old_center.2
    let new_y := new_center.2
    if old_y < s.entry_line ∧ new_y ≥ s.entry_line then
      let s1 := { s with entry_count := s.entry_count + 1,
                         current_count := s.current_count + 1 }
      (s1, { t with counted := true },
        some { type := EventType.entry, vehicle_id := object_id,
               count := s1.current_count, size := none,
               size_change_pct := none })
    else if old_y > s.exit_line ∧ new_y ≤ s.exit_line then
      let s1 := { s with exit_count := s.exit_count + 1,
                         current_count := max 0 (s.current_count - 1) }
      (s1, { t with counted := true },
        some { type := EventType.exit, vehicle_id := object_id,
               count := s1.current_count, size := none,
               size_change_pct := none })
    else (s, t, none)

/-- Embedding of `_check_event`: dispatch on
`tracking_mode == 'perspective_3d'`; any other mode string falls to the
line-crossing branch. -/
def check_event (s : TrackerState) (object_id : Nat) (t : Track)
    (old_center new_center : Int × Int) (area : Int) :
    TrackerState × Track × Option Event :=
  if s.tracking_mode = "perspective_3d" then
    check_size_change s object_id t area
  else
    check_line_crossing s object_id t old_center new_center

end VehicleTracker

/-- First index `j < m` minimising `d j` (`np.argmin` over a matrix row:
ties resolve to the first occurrence). -/
def argminRow (d : Nat → Int) (m : Nat) : Nat :=
  (List.range m).foldl (fun best j => if d j < d best then j else best) 0

/-- The row minimum `D.min(axis=1)` equals the entry at the arg-min column. -/
def rowMin (d : Nat → Int) (m : Nat) : Int := d (argminRow d m)

/-- Insert row index `i` into a key-sorted list, after all indices of equal
key (stable). -/
def insertRow (key : Nat → Int) (i : Nat) : List Nat → List Nat
  | [] => [i]
  | j :: rest => if key i < key j then i :: j :: rest else j :: insertRow key i rest

/-- Model of `np.argsort` on the row minima: row indices in ascending key
order, ties kept in row order. -/
def argsortRows (key : Nat → Int) (n : Nat) : List Nat :=
  (List.range n).foldl (fun acc i => insertRow key i acc) []

/-- The greedy matching loop of `update`: walk rows in ascending row-minimum
order, pair each with its arg-min column, skip consumed rows/columns and
pairs beyond the distance gate (`> 100` pixels, i.e. squared `> 100²`).
Returns the accepted `(row, col)` pairs in acceptance order. -/
def greedyMatch (d : Nat → Nat → Int) (n m : Nat) : List (Nat × Nat) :=
  let rows := argsortRows (fun i => rowMin (d i) m) n
  let pairs := rows.map (fun r => (r, argminRow (d r) m))
  (pairs.foldl
    (fun acc rc =>
      if rc.1 ∈ acc.2.1 ∨ rc.2 ∈ acc.2.2 then acc
      else if d rc.1 rc.2 > 100 ^ 2 then acc
      else (acc.1 ++ [rc], rc.1 :: acc.2.1, rc.2 :: acc.2.2))
    (([] : List (Nat × Nat)), ([] : List Nat), ([] : List Nat))).1

namespace VehicleTracker

def defaultTrack : Track :=
  { center := (0, 0), disappeared := 0, prevPositions := [], sizes := [],
    counted := false }

def defaultDetection : Detection :=
  { bbox := (0, 0, 0, 0), confidence := 0, class_id := 0, center := (0, 0),
    area := none }

/-- Embedding of `_register`: new track at the next sequential id, empty
histories. -/
def register (s : TrackerState) (center : Int × Int) : TrackerState :=
  { s with
    tracks := s.tracks ++ [(s.next_object_id,
      { center := center, disappeared := 0, prevPositions := [],
        sizes := [], counted := false })]
    next_object_id := s.next_object_id + 1 }

/-- The empty-batch branch of `update`: every track ages, tracks past
`max_disappeared` are deregistered. -/
def ageAll (s : TrackerState) : TrackerState :=
  { s with
    tracks := (s.tracks.map
        (fun it => (it.1, { it.2 with disappeared := it.2.disappeared + 1 }))).filter
      (fun it => it.2.disappeared ≤ s.max_disappeared) }

/-- The per-accepted-pair body of the matching loop in `update`: refresh
center and disappearance counter, extend the bounded position history, then
run the event check (which, in perspective mode, also slides the size
window) and write the resulting track back. -/
def applyMatch (dets : List Detection) (acc : TrackerState × List Event)
    (rc : Nat × Nat) : TrackerState × List Event :=
  let st := acc.1
  let it := st.tracks.getD rc.1 (0, defaultTrack)
  let object_id := it.1
  let t := it.2
  let old_center := t.center
  let new_center := (dets.getD rc.2 defaultDetection).center
  let new_area := ((dets.getD rc.2 defaultDetection).area).getD 0
  let prev0 := t.prevPositions ++ [old_center]
  let prev := if prev0.length > 10 then prev0.tail else prev0
  let t1 : Track := { t with center := new_center, disappeared := 0,
                             prevPositions := prev }
  let r := check_event st object_id t1 old_center new_center new_area
  ({ r.1 with tracks := r.1.tracks.set rc.1 (object_id, r.2.1) },
    acc.2 ++ r.2.2.toList)

/-- Age the rows the matching loop did not consume; deregister past
`max_disappeared`. -/
def ageUnmatched (s : TrackerState) (usedRows : List Nat) : TrackerState :=
  { s with
    tracks := ((List.range s.tracks.length).zip s.tracks).filterMap
      (fun p =>
        if p.1 ∈ usedRows then some p.2
        else
          let t1 : Track := { p.2.2 with disappeared := p.2.2.disappeared + 1 }
          if t1.disappeared > s.max_disappeared then none else some (p.2.1, t1)) }

/-- Snapshot: the `{id: center}` copy of `self.objects` returned by `update`. -/
def snapshot (s : TrackerState) : List (Nat × (Int × Int)) :=
  s.tracks.map (fun it => (it.1, it.2.center))

/-- Embedding of `update`: one frame of detections in,
`(state, objects copy, events)` out. -/
def update (s : TrackerState) (detections : List Detection) :
    TrackerState × List (Nat × (Int × Int)) × List Event :=
  if detections.length = 0 then
    let s1 := ageAll s
    (s1, snapshot s1, [])
  else
    let input_centers := detections.map (fun det => det.center)
    if s.tracks.length = 0 then
      let s1 := input_centers.foldl register s
      (s1, snapshot s1, [])
    else
      let object_centers := s.tracks.map (fun it => it.2.center)
      let d := fun i j =>
        distSq (object_centers.getD i (0, 0)) (input_centers.getD j (0, 0))
      let matched := greedyMatch d s.tracks.length input_centers.length
      let r := matched.foldl (applyMatch detections) (s, [])
      let s2 := ageUnmatched r.1 (matched.map (fun rc => rc.1))
      let usedCols := matched.map (fun rc => rc.2)
      let s3 := ((List.range input_centers.length).filter
          (fun c => ¬ c ∈ usedCols)).foldl
        (fun st c => register st (input_centers.getD c (0, 0))) s2
      (s3, snapshot s3, r.2)

/-- Embedding of `reset_count`: zero the occupancy and clear every counted
flag. -/
def reset_count (s : TrackerState) : TrackerState :=
  { s with current_count := 0,
           tracks := s.tracks.map (fun it => (it.1, { it.2 with counted := false })) }

end VehicleTracker

/-- One externally visible operation on the engine. -/
inductive Op where
  | update (dets : List Detection)
  | reset

/-- Run a sequence of `update` / `reset_count` calls from a state. -/
def runOps (s : TrackerState) : List Op → TrackerState
  | [] => s
  | Op.update dets :: rest => runOps (VehicleTracker.update s dets).1 rest
  | Op.reset :: rest => runOps (VehicleTracker.reset_count s) rest

/-- Run a list of detection batches through `update`, keeping the state. -/
def runUpdates (s : TrackerState) (batches : List (List Detection)) : TrackerState :=
  batches.foldl (fun st ds => (VehicleTracker.update st ds).1) s

/-!
Concrete configurations, detections and detection batches used by the
scenario theorems below.
-/

/-- A detection at center `c` with area field `a` (the other fields are
arbitrary and, as proved below, irrelevant). -/
def mkDet (c : Int × Int) (a : Option Int) : Detection :=
  { bbox := (10, 20, 30, 40), confidence := 9 / 10, class_id := 2,
    center := c, area := a }

/-- A perspective-mode engine: entry threshold 5000, exit threshold 2000,
5-frame window, 30 % trend threshold, empty lot. -/
def perspCfg : TrackerState :=
  VehicleTracker.init 150 350 30 "perspective_3d" 5000 2000 5 30 0

/-- Registration frame followed by five matched updates whose areas are
1000, 1300, 2000, 3000, 7000 (the spec's perspective scenario). -/
def c2batches : List (List Detection) :=
  [[mkDet (320, 200) (some 500)], [mkDet (320, 200) (some 1000)],
   [mkDet (320, 200) (some 1300)], [mkDet (320, 200) (some 2000)],
   [mkDet (320, 200) (some 3000)], [mkDet (320, 200) (some 7000)]]

/-- The engine state after the first `k` batches of `c2batches`. -/
def c2after (k : Nat) : TrackerState := runUpdates perspCfg (c2batches.take k)

/-- The events emitted by batch `k` of `c2batches` (counted from 0). -/
def c2events (k : Nat) : List Event :=
  (VehicleTracker.update (c2after k) (c2batches.getD k [])).2.2

/-- Registration frame, then matched areas 1000, 1300, 6000: the third
matched update fires Entry (pct 500 % > 30, 6000 > 5000). -/
def c4fired : TrackerState :=
  runUpdates perspCfg
    [[mkDet (320, 200) (some 100)], [mkDet (320, 200) (some 1000)],
     [mkDet (320, 200) (some 1300)], [mkDet (320, 200) (some 6000)]]

/-- One more successful match of the already-counted track (center moves
10² + 5² pixels², well inside the gate) with a fresh area 9999. -/
def c4next : TrackerState × List (Nat × (Int × Int)) × List Event :=
  VehicleTracker.update c4fired [mkDet (325, 205) (some 9999)]

/-- Registration frame, then matched areas 1000, 1000: an uncounted track
whose size window is `[1000, 1000]`. -/
def c5grown : TrackerState :=
  runUpdates perspCfg
    [[mkDet (320, 200) (some 999)], [mkDet (320, 200) (some 1000)],
     [mkDet (320, 200) (some 1000)]]

/-- A matched detection with no `area` field (treated as area 0). -/
def c5zero : TrackerState × List (Nat × (Int × Int)) × List Event :=
  VehicleTracker.update c5grown [mkDet (320, 200) none]

/-- An invalid configuration: `size_trend_frames = 1 < 3` and a negative
trend threshold; accepted without complaint by `init`. -/
def c8bad : TrackerState :=
  VehicleTracker.init 150 350 30 "perspective_3d" 5000 2000 1 (-30) 0

/-- Running the invalid engine over a hugely growing object. -/
def c8run : TrackerState :=
  runUpdates c8bad
    [[mkDet (320, 200) (some 1000)], [mkDet (320, 200) (some 100000)],
     [mkDet (320, 200) (some 900000)], [mkDet (320, 200) (some 9000000)]]

/-- A line-crossing engine with one live track at `(320, 100)`. -/
def c10s : TrackerState :=
  (VehicleTracker.update
    (VehicleTracker.init 150 350 30 "line_crossing" 5000 2000 5 30 0)
    [mkDet (320, 100) (some 50)]).1

/-- A batch whose single detection sits at `(320, 160)`. -/
def c10d1 : List Detection :=
  [{ bbox := (1, 2, 3, 4), confidence := 1 / 2, class_id := 7,
     center := (320, 160), area := some 1234 }]

/-- Same center as `c10d1`, different bbox, confidence, class and area. -/
def c10d2 : List Detection :=
  [{ bbox := (9, 9, 9, 9), confidence := 1 / 4, class_id := 3,
     center := (320, 160), area := some 777 }]

/-- An engine whose mode string is a misspelling of `perspective_3d`. -/
def c9s : TrackerState :=
  VehicleTracker.init 150 350 30 "perspectve_3d" 5000 2000 5 30 0

/-- A distance function and dimensions with one admissible pair, used to
instantiate the distance-gate theorem. -/
def c3d : Nat → Nat → Int := fun i j => (i : Int) * 7 + (j : Int) * 5

/-- An uncounted track whose size window is `[1000, 1000]`. -/
def c5track : Track :=
  { center := (320, 200), disappeared := 0, prevPositions := [],
    sizes := [1000, 1000], counted := false }

/-!
Theorems.
-/

namespace VehicleTracker

/-- The transcription `sizeChangePct` agrees with the source expression
`(last_size - first_size) / first_size * 100` read in exact rational
arithmetic. -/
theorem pct_eq (f l : Int) :
    sizeChangePct f l = ((l : ℚ) - (f : ℚ)) / (f : ℚ) * 100 := by
  rw [sizeChangePct, Rat.divInt_eq_div]
  push_cast
  ring

/-- C1.  In line-crossing mode, on a matched track with old and new center:
Entry fires iff the track is not yet counted, `old_y < entry_line` and
`new_y ≥ entry_line`; Exit fires iff the track is not yet counted,
`old_y > exit_line`, `new_y ≤ exit_line` and the Entry condition does not
hold (Entry is checked strictly first and short-circuits, so at most one
event — the single `Option Event` result — fires per track per call even if
both line conditions hold simultaneously). -/
theorem c1_line_crossing_events (s : TrackerState) (object_id : Nat)
    (t : Track) (oc nc : Int × Int) :
    ((∃ e, (check_line_crossing s object_id t oc nc).2.2 = some e ∧
        e.type = EventType.entry) ↔
      (t.counted = false ∧ oc.2 < s.entry_line ∧ nc.2 ≥ s.entry_line)) ∧
    ((∃ e, (check_line_crossing s object_id t oc nc).2.2 = some e ∧
        e.type = EventType.exit) ↔
      (t.counted = false ∧ oc.2 > s.exit_line ∧ nc.2 ≤ s.exit_line ∧
        ¬(oc.2 < s.entry_line ∧ nc.2 ≥ s.entry_line))) := by
  unfold check_line_crossing
  rcases t with ⟨tc, td, tp, ts, tcnt⟩
  cases tcnt
  · simp only [Bool.false_eq_true, if_false]
    split_ifs with h1 h2 <;> simp_all
  · simp

/-- C7.  `reset_count` zeroes `current_count`, clears every track's counted
flag, and changes nothing else: lifetime entry/exit totals, the id counter,
each live track's id, center, disappearance counter, position history and
size history, and the whole configuration are untouched — so a
still-tracked object can fire again afterwards. -/
theorem c7_reset_count_frame (s : TrackerState) :
    (reset_count s).current_count = 0 ∧
    (reset_count s).tracks.map (fun it => (it.1, it.2.counted)) =
      s.tracks.map (fun it => (it.1, false)) ∧
    (reset_count s).tracks.map
        (fun it => (it.1, it.2.center, it.2.disappeared, it.2.prevPositions,
          it.2.sizes)) =
      s.tracks.map
        (fun it => (it.1, it.2.center, it.2.disappeared, it.2.prevPositions,
          it.2.sizes)) ∧
    (reset_count s).entry_count = s.entry_count ∧
    (reset_count s).exit_count = s.exit_count ∧
    (reset_count s).next_object_id = s.next_object_id ∧
    (reset_count s).entry_line = s.entry_line ∧
    (reset_count s).exit_line = s.exit_line ∧
    (reset_count s).max_disappeared = s.max_disappeared ∧
    (reset_count s).tracking_mode = s.tracking_mode ∧
    (reset_count s).size_threshold_entry = s.size_threshold_entry ∧
    (reset_count s).size_threshold_exit = s.size_threshold_exit ∧
    (reset_count s).size_trend_frames = s.size_trend_frames ∧
    (reset_count s).size_change_threshold_pct = s.size_change_threshold_pct := by
  simp [reset_count, List.map_map, Function.comp]

/-- C9.  Event dispatch keys on string equality with `perspective_3d`: every
other mode string — `line_crossing`, but also misspellings and arbitrary
values — takes the line-crossing branch; the size-trend branch runs only on
the exact string `perspective_3d`. -/
theorem c9_mode_dispatch (s : TrackerState) (object_id : Nat) (t : Track)
    (oc nc : Int × Int) (area : Int) :
    (s.tracking_mode ≠ "perspective_3d" →
      check_event s object_id t oc nc area =
        check_line_crossing s object_id t oc nc) ∧
    (s.tracking_mode = "perspective_3d" →
      check_event s object_id t oc nc area =
        check_size_change s object_id t area) := by
  unfold check_event
  constructor
  · intro h
    rw [if_neg h]
  · intro h
    rw [if_pos h]

/-- C9 witness: an engine whose mode is the misspelling `perspectve_3d`
evaluates by line crossing. -/
theorem c9_mode_dispatch_witness :
    c9s.tracking_mode ≠ "perspective_3d" ∧
    check_event c9s 0 defaultTrack (320, 100) (320, 160) 1234 =
      check_line_crossing c9s 0 defaultTrack (320, 100) (320, 160) :=
  ⟨by decide,
    (c9_mode_dispatch c9s 0 defaultTrack (320, 100) (320, 160) 1234).1
      (by decide)⟩

/-- C3.  The greedy matcher — rows in ascending row-minimum order (stable),
each row paired with its arg-min column, consumed rows/columns skipped —
never accepts a pair beyond the distance gate: every matched `(row, col)`
has squared centroid distance at most `100²`, i.e. centroid distance at
most 100 distance units. -/
theorem c3_distance_gate (d : Nat → Nat → Int) (n m : Nat) (rc : Nat × Nat)
    (h : rc ∈ greedyMatch d n m) : d rc.1 rc.2 ≤ 100 ^ 2 := by
  simp only [greedyMatch] at h
  generalize (argsortRows (fun i => rowMin (d i) m) n).map
      (fun r => (r, argminRow (d r) m)) = pairs at h
  revert h
  suffices H : ∀ (pairs : List (Nat × Nat))
      (acc : List (Nat × Nat) × List Nat × List Nat),
      (∀ p ∈ acc.1, d p.1 p.2 ≤ 100 ^ 2) →
      ∀ p ∈ (pairs.foldl (fun acc rc =>
          if rc.1 ∈ acc.2.1 ∨ rc.2 ∈ acc.2.2 then acc
          else if d rc.1 rc.2 > 100 ^ 2 then acc
          else (acc.1 ++ [rc], rc.1 :: acc.2.1, rc.2 :: acc.2.2)) acc).1,
        d p.1 p.2 ≤ 100 ^ 2 by
    intro h
    exact H pairs ([], [], []) (by simp) rc h
  intro pairs
  induction pairs with
  | nil =>
    intro acc hacc p hp
    exact hacc p hp
  | cons q rest ih =>
    intro acc hacc p hp
    rw [List.foldl_cons] at hp
    apply ih _ _ p hp
    split_ifs with h1 h2
    · exact hacc
    · exact hacc
    · intro r hr
      rcases List.mem_append.1 hr with hl | hl
      · exact hacc r hl
      · cases List.mem_singleton.1 hl
        exact le_of_not_lt h2

/-- C3 witness: a concrete distance function on a 2×2 matrix; the matcher
accepts the pair `(0, 0)`, which indeed sits inside the gate. -/
theorem c3_distance_gate_witness :
    (0, 0) ∈ greedyMatch c3d 2 2 ∧ c3d 0 0 ≤ 100 ^ 2 :=
  ⟨by decide, c3_distance_gate c3d 2 2 (0, 0) (by decide)⟩

/-- C2.  Perspective mode: no event fires while the slid size window holds
fewer than 3 samples or its first sample is 0; Entry fires iff the track is
not yet counted, `pct = (last − first) / first × 100 > size_change_threshold_pct`
and `last > size_threshold_entry`.  In particular, on the spec's scenario —
matched areas 1000, 1300, 2000, 3000, 7000 with entry threshold 5000,
trend threshold 30 %, 5-frame window — Entry fires exactly on the fifth
matched update and `current_count` increments from 0 to 1. -/
theorem c2_size_trend_entry :
    (∀ (s : TrackerState) (object_id : Nat) (t : Track) (area : Int),
      ((slideWindow s.size_trend_frames t.sizes area).length < 3 ∨
          (slideWindow s.size_trend_frames t.sizes area).headD 0 = 0 →
        (check_size_change s object_id t area).2.2 = none) ∧
      ((∃ e, (check_size_change s object_id t area).2.2 = some e ∧
          e.type = EventType.entry) ↔
        (t.counted = false ∧
          3 ≤ (slideWindow s.size_trend_frames t.sizes area).length ∧
          (slideWindow s.size_trend_frames t.sizes area).headD 0 ≠ 0 ∧
          sizeChangePct ((slideWindow s.size_trend_frames t.sizes area).headD 0)
              ((slideWindow s.size_trend_frames t.sizes area).getLastD 0) >
            s.size_change_threshold_pct ∧
          (slideWindow s.size_trend_frames t.sizes area).getLastD 0 >
            s.size_threshold_entry))) ∧
    (c2events 1 = [] ∧ c2events 2 = [] ∧ c2events 3 = [] ∧ c2events 4 = [] ∧
      c2events 5 =
        [{ type := EventType.entry, vehicle_id := 0, count := 1,
           size := some 7000, size_change_pct := some 600 }] ∧
      (c2after 5).current_count = 0 ∧ (c2after 6).current_count = 1) := by
  constructor
  · intro s object_id t area
    unfold check_size_change
    rcases t with ⟨tc, td, tp, ts, tcnt⟩
    cases tcnt
    · simp only [Bool.false_eq_true, if_false]
      split_ifs with h1 h2 h3 h4 <;> simp_all
    · simp
  · exact ⟨by decide, by decide, by decide, by decide, by decide, by decide,
      by decide⟩

/-- C2 witness: on a fresh window of a single sample the check returns no
event. -/
theorem c2_size_trend_entry_witness :
    (slideWindow perspCfg.size_trend_frames defaultTrack.sizes 1000).length < 3 ∧
    (check_size_change perspCfg 0 defaultTrack 1000).2.2 = none :=
  ⟨by decide,
    (c2_size_trend_entry.1 perspCfg 0 defaultTrack 1000).1 (Or.inl (by decide))⟩

/-- C4 counterexample: a track fires Entry on areas 1000, 1300, 6000 and is
counted; the next successful match (center moves to `(325, 205)`, well
inside the gate, the engine accepts it and refreshes the center) does NOT
append its area 9999 — the size window stays `[1000, 1300, 6000]` because
the counted guard of `_check_size_change` returns before the append.  This
contradicts the claim that every successful match appends, with the window
still sliding after a fire. -/
theorem c4_counterexample :
    c4fired.tracks.map (fun it => (it.2.sizes, it.2.counted)) =
      [([1000, 1300, 6000], true)] ∧
    c4next.1.tracks.map (fun it => (it.2.center, it.2.sizes)) =
      [((325, 205), [1000, 1300, 6000])] ∧
    c4next.2.2 = [] :=
  ⟨by decide, by decide, by decide⟩

/-- C4 amended: a successful match appends the current area (bounded to
`size_trend_frames`, oldest first) only while the track is not yet counted;
once the track has fired, a match leaves the size window untouched — and
yields no event — until a global reset clears the counted flag. -/
theorem c4_window_amended (s : TrackerState) (object_id : Nat) (t : Track)
    (area : Int) :
    (check_size_change s object_id t area).2.1.sizes =
      (if t.counted then t.sizes
        else slideWindow s.size_trend_frames t.sizes area) ∧
    (check_size_change s object_id { t with counted := true } area).2.2 =
      none := by
  constructor
  · unfold check_size_change
    rcases t with ⟨tc, td, tp, ts, tcnt⟩
    cases tcnt
    · simp only [Bool.false_eq_true, if_false]
      split_ifs <;> rfl
    · simp
  · unfold check_size_change
    simp

/-- C5 counterexample: in perspective mode with default thresholds, a
matched detection with no `area` field (treated as area 0) after two
matched areas of 1000 fires an Exit event (window `[1000, 1000, 0]`,
pct −100 % < −30, last 0 < 2000), contradicting the claim that a zero-area
detection never causes an Exit. -/
theorem c5_counterexample :
    c5zero.2.2 =
      [{ type := EventType.exit, vehicle_id := 0, count := 0,
         size := some 0, size_change_pct := some (-100) }] ∧
    c5zero.1.exit_count = 1 :=
  ⟨by decide, by decide⟩

/-- A non-empty slid window always ends with the area just appended. -/
theorem slideWindow_getLastD (f : Nat) (sz : List Int) (a : Int)
    (h : slideWindow f sz a ≠ []) : (slideWindow f sz a).getLastD 0 = a := by
  simp only [slideWindow] at h ⊢
  split_ifs with hl
  · simp only [if_pos hl] at h
    cases sz with
    | nil => simp at h
    | cons x rest =>
      simp only [List.cons_append, List.tail_cons]
      exact List.getLastD_concat _ _ _
  · exact List.getLastD_concat _ _ _

/-- C5 amended: a matched zero-area (or missing-area) detection never
causes an Entry event when `size_threshold_entry ≥ 0`, but — contrary to
the original claim — it causes an Exit event exactly when the track is
uncounted, its slid window has at least 3 samples with a positive first
sample, `size_change_threshold_pct < 100`, and `size_threshold_exit > 0`
(the percentage is then exactly −100). -/
theorem c5_zero_area_amended (s : TrackerState) (object_id : Nat) (t : Track)
    (hc : t.counted = false)
    (hlen : 3 ≤ (slideWindow s.size_trend_frames t.sizes 0).length)
    (hfirst : 0 < (slideWindow s.size_trend_frames t.sizes 0).headD 0)
    (hentry : 0 ≤ s.size_threshold_entry) :
    ((∃ e, (check_size_change s object_id t 0).2.2 = some e ∧
        e.type = EventType.exit) ↔
      (s.size_change_threshold_pct < 100 ∧ 0 < s.size_threshold_exit)) ∧
    ¬(∃ e, (check_size_change s object_id t 0).2.2 = some e ∧
        e.type = EventType.entry) := by
  have hne : slideWindow s.size_trend_frames t.sizes 0 ≠ [] :=
    List.ne_nil_of_length_pos (by omega)
  have hlast := slideWindow_getLastD s.size_trend_frames t.sizes 0 hne
  have hf : (((slideWindow s.size_trend_frames t.sizes 0).headD 0 : Int) : ℚ) ≠ 0 :=
    Int.cast_ne_zero.mpr (ne_of_gt hfirst)
  have hpct : sizeChangePct ((slideWindow s.size_trend_frames t.sizes 0).headD 0)
      ((slideWindow s.size_trend_frames t.sizes 0).getLastD 0) = -100 := by
    rw [hlast, pct_eq, Int.cast_zero, zero_sub, neg_div, div_self hf]
    norm_num
  simp only [check_size_change, hc, Bool.false_eq_true, if_false]
  split_ifs with h1 h2 h3 h4
  · exact absurd h1 (by omega)
  · exact absurd h2 (by omega)
  · rw [hlast] at h3
    exact absurd h3.2 (by omega)
  · rw [hpct] at h4
    rw [hlast] at h4
    constructor
    · simp only [Option.some.injEq]
      constructor
      · intro _
        exact ⟨neg_lt_neg_iff.mp h4.1, h4.2⟩
      · intro _
        exact ⟨_, rfl, rfl⟩
    · rintro ⟨e, he, ht⟩
      cases Option.some.inj he
      simp at ht
  · rw [hpct, hlast] at h4
    constructor
    · constructor
      · rintro ⟨e, he, -⟩
        cases he
      · rintro ⟨hth, hex⟩
        exact absurd ⟨neg_lt_neg_iff.mpr hth, hex⟩ h4
    · rintro ⟨e, he, -⟩
      cases he

/-- C5 amended witness: the concrete track with window `[1000, 1000]` and
a zero-area match under the default configuration fires the Exit event. -/
theorem c5_zero_area_amended_witness :
    (c5track.counted = false ∧
      3 ≤ (slideWindow perspCfg.size_trend_frames c5track.sizes 0).length ∧
      0 < (slideWindow perspCfg.size_trend_frames c5track.sizes 0).headD 0 ∧
      0 ≤ perspCfg.size_threshold_entry) ∧
    ((∃ e, (check_size_change perspCfg 0 c5track 0).2.2 = some e ∧
        e.type = EventType.exit) ↔
      (perspCfg.size_change_threshold_pct < 100 ∧
        0 < perspCfg.size_threshold_exit)) :=
  ⟨⟨by decide, by decide, by decide, by decide⟩,
    (c5_zero_area_amended perspCfg 0 c5track (by decide) (by decide)
      (by decide) (by decide)).1⟩

/-- Both event checks keep `current_count` nonnegative: they either leave
it, increment it, or decrement it through `max 0 (· - 1)`. -/
theorem check_event_current_count (s : TrackerState) (object_id : Nat)
    (t : Track) (oc nc : Int × Int) (area : Int)
    (h : 0 ≤ s.current_count) :
    0 ≤ (check_event s object_id t oc nc area).1.current_count := by
  unfold check_event check_size_change check_line_crossing
  dsimp only
  split_ifs <;> dsimp only <;> omega

/-- The loop body of the matching fold keeps `current_count` nonnegative. -/
theorem applyMatch_current_count (dets : List Detection)
    (acc : TrackerState × List Event) (rc : Nat × Nat)
    (h : 0 ≤ acc.1.current_count) :
    0 ≤ (applyMatch dets acc rc).1.current_count := by
  unfold applyMatch
  dsimp only
  exact check_event_current_count _ _ _ _ _ _ h

/-- The matching fold keeps `current_count` nonnegative. -/
theorem foldl_applyMatch_current_count (dets : List Detection) :
    ∀ (l : List (Nat × Nat)) (acc : TrackerState × List Event),
      0 ≤ acc.1.current_count →
      0 ≤ (l.foldl (applyMatch dets) acc).1.current_count := by
  intro l
  induction l with
  | nil => intro acc h; exact h
  | cons q rest ih =>
    intro acc h
    rw [List.foldl_cons]
    exact ih _ (applyMatch_current_count dets acc q h)

/-- A fold whose body never changes `current_count` never changes it. -/
theorem foldl_current_count_const {β : Type} (g : TrackerState → β → TrackerState)
    (hg : ∀ st b, (g st b).current_count = st.current_count) :
    ∀ (l : List β) (st : TrackerState),
      (l.foldl g st).current_count = st.current_count := by
  intro l
  induction l with
  | nil => intro st; rfl
  | cons b rest ih =>
    intro st
    rw [List.foldl_cons, ih, hg]

/-- One `update` call keeps `current_count` nonnegative. -/
theorem update_current_count (s : TrackerState) (dets : List Detection)
    (h : 0 ≤ s.current_count) :
    0 ≤ (update s dets).1.current_count := by
  unfold update
  split_ifs with h1 h2
  · exact h
  · dsimp only
    rw [foldl_current_count_const register (fun st b => rfl)]
    exact h
  · dsimp only
    rw [foldl_current_count_const
      (fun st c => register st ((dets.map (fun det => det.center)).getD c (0, 0)))
      (fun st b => rfl)]
    exact foldl_applyMatch_current_count dets _ _ h

/-- C6 counterexample: `initial_count` is not validated, so an engine
constructed with `initial_count = -1` starts — before any operation — with
a negative `current_count`, contradicting the unconditional claim. -/
theorem c6_counterexample :
    (runOps (init 150 350 30 "line_crossing" 5000 2000 5 30 (-1))
      []).current_count < 0 := by
  decide

/-- Every operation preserves nonnegativity of `current_count`. -/
theorem runOps_current_count :
    ∀ (ops : List Op) (s : TrackerState), 0 ≤ s.current_count →
      0 ≤ (runOps s ops).current_count := by
  intro ops
  induction ops with
  | nil => intro s h; exact h
  | cons op rest ih =>
    intro s h
    cases op with
    | update dets => exact ih _ (update_current_count s dets h)
    | reset => exact ih _ (by rfl : (0:Int) ≤ 0)

/-- C6 amended: provided the engine is constructed with
`initial_count ≥ 0`, `current_count` stays nonnegative across every
sequence of `update` and `reset_count` calls — Exit decrements clamp at
zero. -/
theorem c6_current_count_nonneg (el xl : Int) (md : Nat) (tm : String)
    (ste stx : Int) (stf : Nat) (scp : ℚ) (ic : Int) (hic : 0 ≤ ic)
    (ops : List Op) :
    0 ≤ (runOps (init el xl md tm ste stx stf scp ic) ops).current_count :=
  runOps_current_count ops _ hic

/-- C6 amended witness: a run with entries, exits, empty frames and a reset
from an empty lot never goes negative. -/
theorem c6_current_count_nonneg_witness :
    (0 : Int) ≤ 0 ∧
    0 ≤ (runOps (init 150 350 30 "line_crossing" 5000 2000 5 30 0)
      [Op.update [mkDet (320, 360) (some 40)],
       Op.update [mkDet (320, 340) (some 40)],
       Op.update [], Op.reset]).current_count :=
  ⟨le_refl 0,
    c6_current_count_nonneg 150 350 30 "line_crossing" 5000 2000 5 30 0
      (le_refl 0)
      [Op.update [mkDet (320, 360) (some 40)],
       Op.update [mkDet (320, 340) (some 40)],
       Op.update [], Op.reset]⟩

/-- C8 counterexample: an invalid configuration — `size_trend_frames = 1`
(< 3) together with a negative trend threshold — is accepted: `init`
produces a working engine instance, and over a hugely growing tracked
object that engine emits no event at all (lifetime counters stay 0),
which is exactly the silent outcome the claim says is prevented by an
eager configuration error. -/
theorem c8_counterexample :
    c8bad.size_trend_frames = 1 ∧ c8bad.size_change_threshold_pct = -30 ∧
    c8run.tracks.length = 1 ∧ c8run.entry_count = 0 ∧ c8run.exit_count = 0 ∧
    c8run.current_count = 0 :=
  ⟨by decide, by decide, by decide, by decide, by decide, by decide⟩

/-- C8 amended: construction performs no validation — for every
configuration, including `size_trend_frames < 3` and negative thresholds,
`init` returns the plain record holding exactly the given fields; and in
perspective mode an instance with `size_trend_frames ≤ 2` silently never
emits an event, because its size windows (always bounded by the configured
frame count) never reach the 3 samples evaluation requires. -/
theorem c8_no_validation (el xl : Int) (md : Nat) (tm : String)
    (ste stx : Int) (stf : Nat) (scp : ℚ) (ic : Int) :
    ((init el xl md tm ste stx stf scp ic).entry_line = el ∧
     (init el xl md tm ste stx stf scp ic).exit_line = xl ∧
     (init el xl md tm ste stx stf scp ic).max_disappeared = md ∧
     (init el xl md tm ste stx stf scp ic).tracking_mode = tm ∧
     (init el xl md tm ste stx stf scp ic).size_threshold_entry = ste ∧
     (init el xl md tm ste stx stf scp ic).size_threshold_exit = stx ∧
     (init el xl md tm ste stx stf scp ic).size_trend_frames = stf ∧
     (init el xl md tm ste stx stf scp ic).size_change_threshold_pct = scp ∧
     (init el xl md tm ste stx stf scp ic).current_count = ic ∧
     (init el xl md tm ste stx stf scp ic).tracks = []) ∧
    (∀ (s : TrackerState) (object_id : Nat) (t : Track) (area : Int),
      s.size_trend_frames ≤ 2 → t.sizes.length ≤ s.size_trend_frames →
      (check_size_change s object_id t area).2.2 = none) := by
  constructor
  · exact ⟨rfl, rfl, rfl, rfl, rfl, rfl, rfl, rfl, rfl, rfl⟩
  · intro s object_id t area hf hlen
    have hw : (slideWindow s.size_trend_frames t.sizes area).length < 3 := by
      have hap : (t.sizes ++ [area]).length = t.sizes.length + 1 := by simp
      have htl : (t.sizes ++ [area]).tail.length =
          (t.sizes ++ [area]).length - 1 := List.length_tail _
      simp only [slideWindow]
      split_ifs with hgt <;> omega
    unfold check_size_change
    dsimp only
    by_cases hc : t.counted = true
    · rw [if_pos hc]
    · rw [if_neg hc, if_pos hw]

/-- C8 amended witness: the invalid instance `c8bad` accepts a huge matched
area without emitting any event. -/
theorem c8_no_validation_witness :
    (c8bad.size_trend_frames ≤ 2 ∧
      defaultTrack.sizes.length ≤ c8bad.size_trend_frames) ∧
    (check_size_change c8bad 0 defaultTrack 999999).2.2 = none :=
  ⟨⟨by decide, by decide⟩,
    (c8_no_validation 150 350 30 "perspective_3d" 5000 2000 1 (-30) 0).2
      c8bad 0 defaultTrack 999999 (by decide) (by decide)⟩

/-- Event checks never change the configured tracking mode. -/
theorem check_event_mode (s : TrackerState) (object_id : Nat) (t : Track)
    (oc nc : Int × Int) (area : Int) :
    (check_event s object_id t oc nc area).1.tracking_mode =
      s.tracking_mode := by
  unfold check_event check_size_change check_line_crossing
  dsimp only
  split_ifs <;> rfl

/-- Outside perspective mode the event check ignores the detection area. -/
theorem check_event_area_blind (s : TrackerState) (object_id : Nat)
    (t : Track) (oc nc : Int × Int) (a1 a2 : Int)
    (h : s.tracking_mode ≠ "perspective_3d") :
    check_event s object_id t oc nc a1 = check_event s object_id t oc nc a2 := by
  unfold check_event
  rw [if_neg h, if_neg h]

/-- The matching-loop body never changes the configured tracking mode. -/
theorem applyMatch_mode (dets : List Detection)
    (acc : TrackerState × List Event) (rc : Nat × Nat) :
    (applyMatch dets acc rc).1.tracking_mode = acc.1.tracking_mode := by
  unfold applyMatch
  dsimp only
  exact check_event_mode _ _ _ _ _ _

/-- The matching-loop body reads a detection only through its center and
its area, and the area only in perspective mode. -/
theorem applyMatch_congr (d1 d2 : List Detection)
    (acc : TrackerState × List Event) (rc : Nat × Nat)
    (hcen : (d1.getD rc.2 defaultDetection).center =
      (d2.getD rc.2 defaultDetection).center)
    (h : acc.1.tracking_mode ≠ "perspective_3d" ∨
      (d1.getD rc.2 defaultDetection).area =
        (d2.getD rc.2 defaultDetection).area) :
    applyMatch d1 acc rc = applyMatch d2 acc rc := by
  unfold applyMatch
  dsimp only
  rw [hcen]
  rcases h with h | h
  · generalize ((d1.getD rc.2 defaultDetection).area).getD 0 = a1
    generalize ((d2.getD rc.2 defaultDetection).area).getD 0 = a2
    rw [check_event_area_blind acc.1 _ _ _ _ a1 a2 h]
  · rw [h]

/-- The matching fold reads detections only through centers and (in
perspective mode) areas, and preserves the tracking mode. -/
theorem foldl_applyMatch_congr (d1 d2 : List Detection) (m : String)
    (hm : m ≠ "perspective_3d" ∨
      ∀ i, (d1.getD i defaultDetection).area = (d2.getD i defaultDetection).area)
    (hcen : ∀ i, (d1.getD i defaultDetection).center =
      (d2.getD i defaultDetection).center) :
    ∀ (l : List (Nat × Nat)) (acc : TrackerState × List Event),
      acc.1.tracking_mode = m →
      l.foldl (applyMatch d1) acc = l.foldl (applyMatch d2) acc := by
  intro l
  induction l with
  | nil => intro acc _; rfl
  | cons q rest ih =>
    intro acc hacc
    have hstep : applyMatch d1 acc q = applyMatch d2 acc q := by
      apply applyMatch_congr d1 d2 acc q (hcen q.2)
      rcases hm with hm | hm
      · exact Or.inl (by rw [hacc]; exact hm)
      · exact Or.inr (hm q.2)
    have hmode : (applyMatch d1 acc q).1.tracking_mode = m :=
      (applyMatch_mode d1 acc q).trans hacc
    rw [List.foldl_cons, List.foldl_cons, ← hstep]
    exact ih _ hmode

/-- C10.  Two equally long detection batches that agree pairwise on the
center field — and, when the engine is in perspective mode, also on the
area field — are indistinguishable to `update`: same resulting state, same
snapshot, same event list.  The bbox, confidence and class id fields never
influence the engine. -/
theorem c10_center_area_only (s : TrackerState) (d1 d2 : List Detection)
    (hlen : d1.length = d2.length)
    (hcen : ∀ i, (d1.getD i defaultDetection).center =
      (d2.getD i defaultDetection).center)
    (ha : s.tracking_mode = "perspective_3d" →
      ∀ i, (d1.getD i defaultDetection).area =
        (d2.getD i defaultDetection).area) :
    update s d1 = update s d2 := by
  have hmap : d1.map (fun det => det.center) = d2.map (fun det => det.center) := by
    apply List.ext_getElem (by simpa using hlen)
    intro i h1 h2
    have hc := hcen i
    rw [List.getD_eq_getElem?_getD, List.getD_eq_getElem?_getD,
      List.getElem?_eq_getElem (by simpa using h1),
      List.getElem?_eq_getElem (by simpa using h2)] at hc
    simpa using hc
  have hm : s.tracking_mode ≠ "perspective_3d" ∨
      ∀ i, (d1.getD i defaultDetection).area =
        (d2.getD i defaultDetection).area := by
    by_cases hmode : s.tracking_mode = "perspective_3d"
    · exact Or.inr (ha hmode)
    · exact Or.inl hmode
  have hfold : ∀ (l : List (Nat × Nat)),
      l.foldl (applyMatch d1) (s, []) = l.foldl (applyMatch d2) (s, []) :=
    fun l => foldl_applyMatch_congr d1 d2 s.tracking_mode hm hcen l (s, []) rfl
  unfold update
  dsimp only
  rw [← hlen, ← hmap]
  by_cases h0 : d1.length = 0
  · simp only [if_pos h0]
  · simp only [if_neg h0]
    by_cases ht : s.tracks.length = 0
    · simp only [if_pos ht]
    · simp only [if_neg ht, hfold]

/-- C10 witness: two one-detection batches with the same center but
different bbox, confidence, class id and (in line-crossing mode) area give
the engine with one live track identical results. -/
theorem c10_center_area_only_witness :
    c10d1.length = c10d2.length ∧
    update c10s c10d1 = update c10s c10d2 :=
  ⟨by decide,
    c10_center_area_only c10s c10d1 c10d2 (by decide)
      (by intro i
          match i with
          | 0 => rfl
          | Nat.succ n => rfl)
      (by intro h
          exact absurd h (by decide))⟩

end VehicleTracker
